import Mathlib

/-!
A shallow embedding of the Casey legal MCP tool server (src/index.js):
the registered tool descriptors, the five tool handlers, and the
request-dispatch switch with its catch-all error wrapper.

JavaScript runtime behaviour is modelled explicitly: an absent JSON field
is `none`; template interpolation of an absent value prints the word
undefined; `x || fallback` treats both an absent value and the empty
string as falsy; `Date.now()` is an explicit millisecond clock argument;
and the external `Date` string parser is an explicit parameter returning
`none` for an invalid date, whose numeric value is NaN, so that every
arithmetic result and comparison involving it is modelled by the `none`
branch (NaN comparisons are false, NaN prints as NaN).
-/

/-- JavaScript template interpolation of a possibly-absent string field:
an absent field prints the word undefined. -/
def jsStr : Option String → String
  | some s => s
  | none => "undefined"

/-- JavaScript `x || fallback` on a possibly-absent string: both an absent
value and the empty string are falsy. -/
def jsOr : Option String → String → String
  | none, fb => fb
  | some s, fb => if s = "" then fb else s

/-- The fixed case identifier `this.caseId`. -/
def caseId : String := "1FDV-23-0001009"

/-- One invocation argument object (`request.params.arguments`): each
schema field is either present or absent. -/
structure RawArgs where
  case_id : Option String := none
  analysis_type : Option String := none
  focus_area : Option String := none
  evidence_type : Option String := none
  description : Option String := none
  date_collected : Option String := none
  relevance : Option String := none
  deadline_type : Option String := none
  date : Option String := none
  priority : Option String := none
  incident_date : Option String := none
  bias_type : Option String := none
  impact : Option String := none
  witnesses : Option (List String) := none
  assessment_date : Option String := none
  concern_type : Option String := none
  severity : Option String := none
  evidence : Option String := none
  recommended_action : Option String := none

/-- Static findings table of `generateAnalysisFindings(type, focus)`; an
unrecognized (or absent) analysis type falls back to the generic message,
and the focus argument is ignored. -/
def generateAnalysisFindings (ty : Option String) (_focus : Option String) : List String :=
  match ty with
  | some ("bias_detection") =>
      ["Multiple instances of procedural bias identified",
       "Pattern of discriminatory treatment documented",
       "Due process violations found in court proceedings"]
  | some ("timeline_analysis") =>
      ["Critical timeline gaps identified in case progression",
       "Delay tactics used to Casey\x27s disadvantage",
       "Child\x27s best interests not prioritized in scheduling"]
  | some ("precedent_research") =>
      ["Similar cases show pattern of judicial overreach",
       "Federal civil rights precedents support Casey\x27s position",
       "Child welfare standards not being properly applied"]
  | some ("civil_rights_review") =>
      ["Constitutional violations present in case handling",
       "Equal protection under law compromised",
       "Parental rights unlawfully restricted"]
  | _ => ["Analysis completed - detailed findings available"]

/-- Static recommendation list of `generateRecommendations(type, focus)`;
both arguments are ignored. -/
def generateRecommendations (_ty _focus : Option String) : List String :=
  ["File motion for judicial recusal based on documented bias",
   "Request emergency hearing for child welfare concerns",
   "Gather additional evidence of procedural violations",
   "Consider federal civil rights lawsuit if state remedies fail"]

/-- Static next-step list of `generateNextSteps(type, focus)`; both
arguments are ignored. -/
def generateNextSteps (_ty _focus : Option String) : List String :=
  ["Prepare comprehensive bias documentation package",
   "Schedule emergency consultation with civil rights attorney",
   "Document all future interactions with court system",
   "Prioritize Kekoa\x27s immediate safety and well-being"]

/-- The generated id `evidence_${Date.now()}`. -/
def evidenceId (t : Nat) : String := "evidence_" ++ Nat.repr t

/-- The generated id `deadline_${Date.now()}`. -/
def deadlineId (t : Nat) : String := "deadline_" ++ Nat.repr t

/-- The generated id `bias_incident_${Date.now()}`. -/
def biasIncidentId (t : Nat) : String := "bias_incident_" ++ Nat.repr t

/-- The generated id `welfare_${Date.now()}`. -/
def welfareId (t : Nat) : String := "welfare_" ++ Nat.repr t

/-- Handler `analyzeLegalCase(args)`: the destructuring default supplies the
fixed case id only when `case_id` is absent, and the text joins the three
static sections with the header. -/
def analyzeLegalCase (a : RawArgs) : String :=
  "Legal Case Analysis Complete for " ++ a.case_id.getD caseId ++ "\n\n" ++
  "Analysis Type: " ++ jsStr a.analysis_type ++ "\n" ++
  "Focus Area: " ++ jsOr a.focus_area ("General") ++ "\n\n" ++
  "Key Findings:\n" ++
    String.intercalate ("\n") (generateAnalysisFindings a.analysis_type a.focus_area) ++ "\n\n" ++
  "Recommendations:\n" ++
    String.intercalate ("\n") (generateRecommendations a.analysis_type a.focus_area) ++ "\n\n" ++
  "Next Steps:\n" ++
    String.intercalate ("\n") (generateNextSteps a.analysis_type a.focus_area)

/-- Handler `trackEvidence(args)`. -/
def trackEvidence (t : Nat) (a : RawArgs) : String :=
  "Evidence Tracked Successfully\n\n" ++
  "Evidence ID: " ++ evidenceId t ++ "\n" ++
  "Type: " ++ jsStr a.evidence_type ++ "\n" ++
  "Description: " ++ jsStr a.description ++ "\n" ++
  "Relevance: " ++ jsOr a.relevance ("Not specified") ++ "\n" ++
  "Date Collected: " ++ jsOr a.date_collected ("Not specified") ++ "\n\n" ++
  "This evidence has been added to the Case " ++ caseId ++ " evidence database."

/-- The ceiling used by `Math.ceil((date - now) / 86400000)` on exact
millisecond integers. -/
def jsCeilDiv (a b : Int) : Int := -(Int.ediv (-a) b)

/-- `Math.ceil((new Date(args.date) - new Date()) / (1000 * 60 * 60 * 24))`:
an absent or unparseable date makes the whole computation NaN (`none`). -/
def mdDaysUntil (parse : String → Option Int) (now : Int) (a : RawArgs) : Option Int :=
  match a.date.bind parse with
  | none => none
  | some ms => some (jsCeilDiv (ms - now) 86400000)

/-- `daysUntil <= 7 ? URGENT : daysUntil <= 30 ? IMPORTANT : SCHEDULED`;
both comparisons are false on NaN, so NaN lands in SCHEDULED. -/
def mdUrgency : Option Int → String
  | none => "SCHEDULED"
  | some d => if d ≤ 7 then "URGENT" else if d ≤ 30 then "IMPORTANT" else "SCHEDULED"

/-- Template interpolation of the computed day count (NaN prints NaN). -/
def jsNumStr : Option Int → String
  | none => "NaN"
  | some d => Int.repr d

/-- Handler `monitorDeadlines(args)`. -/
def monitorDeadlines (parse : String → Option Int) (now : Int) (t : Nat) (a : RawArgs) : String :=
  "Deadline Monitoring Activated\n\n" ++
  "Deadline ID: " ++ deadlineId t ++ "\n" ++
  "Type: " ++ jsStr a.deadline_type ++ "\n" ++
  "Date: " ++ jsStr a.date ++ "\n" ++
  "Days Until: " ++ jsNumStr (mdDaysUntil parse now a) ++ "\n" ++
  "Urgency: " ++ mdUrgency (mdDaysUntil parse now a) ++ "\n" ++
  "Priority: " ++ jsStr a.priority ++ "\n" ++
  "Description: " ++ jsStr a.description ++ "\n\n" ++
  "Automatic alerts will be sent for this deadline. Fighting for Kekoa\x27s future!"

/-- Handler `documentJudicialBias(args)`: `witnesses?.join(', ')` is absent
when the field is absent, and the join of an empty list (or of a list of
empty names) is the empty string, which is falsy. -/
def documentJudicialBias (t : Nat) (a : RawArgs) : String :=
  "Judicial Bias Incident Documented\n\n" ++
  "Incident ID: " ++ biasIncidentId t ++ "\n" ++
  "Date: " ++ jsStr a.incident_date ++ "\n" ++
  "Type: " ++ jsStr a.bias_type ++ "\n" ++
  "Impact: " ++ jsStr a.impact ++ "\n" ++
  "Description: " ++ jsStr a.description ++ "\n" ++
  "Witnesses: " ++ jsOr (a.witnesses.map (String.intercalate (", "))) ("None specified") ++ "\n\n" ++
  "This incident has been added to the judicial bias documentation for Case " ++ caseId ++ ". " ++
  "Justice for Kekoa - every instance of bias is documented and will be used to protect his future."

/-- Handler `assessChildWelfare(args)`: the child name in the text is the
fixed literal. -/
def assessChildWelfare (t : Nat) (a : RawArgs) : String :=
  "Child Welfare Assessment Completed\n\n" ++
  "Assessment ID: " ++ welfareId t ++ "\n" ++
  "Child: Kekoa\n" ++
  "Date: " ++ jsStr a.assessment_date ++ "\n" ++
  "Concern Type: " ++ jsStr a.concern_type ++ "\n" ++
  "Severity: " ++ jsStr a.severity ++ "\n" ++
  "Evidence: " ++ jsOr a.evidence ("To be gathered") ++ "\n" ++
  "Recommended Action: " ++ jsOr a.recommended_action ("Under review") ++ "\n\n" ++
  "Kekoa\x27s welfare is our top priority. This assessment will be used to ensure his safety and well-being."

/-- One entry of the ListTools response: tool name, schema property names
in schema order, and the required subset. -/
structure ToolDescriptor where
  name : String
  props : List String
  required : List String
  deriving DecidableEq

/-- The registry returned by the ListTools handler, in registration order. -/
def listTools : List ToolDescriptor :=
  [⟨"analyze_legal_case",
    ["case_id", "analysis_type", "focus_area"],
    ["analysis_type"]⟩,
   ⟨"track_evidence",
    ["evidence_type", "description", "date_collected", "relevance"],
    ["evidence_type", "description"]⟩,
   ⟨"monitor_deadlines",
    ["deadline_type", "date", "description", "priority"],
    ["deadline_type", "date", "description"]⟩,
   ⟨"document_judicial_bias",
    ["incident_date", "bias_type", "description", "impact", "witnesses"],
    ["incident_date", "bias_type", "description"]⟩,
   ⟨"child_welfare_assessment",
    ["assessment_date", "concern_type", "severity", "evidence", "recommended_action"],
    ["assessment_date", "concern_type", "severity"]⟩]

/-- Look up a registry descriptor by tool name. -/
def getTool (n : String) : Option ToolDescriptor :=
  listTools.find? (fun d => d.name == n)

/-- Spec-side required-field table, transcribed from the schema table in
section 6 of the specification (for comparison with `listTools`): there the
bias-documentation incident date is marked optional. -/
def specRequiredTable : List (String × List String) :=
  [("analyze_legal_case", ["analysis_type"]),
   ("track_evidence", ["evidence_type", "description"]),
   ("monitor_deadlines", ["deadline_type", "date", "description"]),
   ("document_judicial_bias", ["bias_type", "description"]),
   ("child_welfare_assessment", ["assessment_date", "concern_type", "severity"])]

/-- Spec-side required-field lookup by tool name. -/
def specRequiredOf (n : String) : Option (List String) :=
  (specRequiredTable.find? (fun p => p.fst == n)).map (fun p => p.snd)

/-- MCP error codes used by the dispatcher. -/
inductive McpErrorCode
  | MethodNotFound
  | InternalError
  deriving DecidableEq

/-- A structured MCP error: code and message. -/
structure McpError where
  code : McpErrorCode
  message : String
  deriving DecidableEq

/-- The switch inside the CallTool handler: dispatch to a handler, or throw
the MethodNotFound error carrying an unknown tool name. -/
def toolSwitch (parse : String → Option Int) (now : Int) (t : Nat)
    (name : String) (a : RawArgs) : Except McpError String :=
  match name with
  | "analyze_legal_case" => Except.ok (analyzeLegalCase a)
  | "track_evidence" => Except.ok (trackEvidence t a)
  | "monitor_deadlines" => Except.ok (monitorDeadlines parse now t a)
  | "document_judicial_bias" => Except.ok (documentJudicialBias t a)
  | "child_welfare_assessment" => Except.ok (assessChildWelfare t a)
  | other => Except.error ⟨McpErrorCode.MethodNotFound, "Unknown tool: " ++ other⟩

/-- The catch block around the switch: any error thrown inside the try,
including the MethodNotFound throw itself, is rewrapped as an InternalError
carrying the tool name and the inner message. -/
def catchWrap (name : String) : Except McpError String → Except McpError String
  | Except.ok s => Except.ok s
  | Except.error e =>
      Except.error ⟨McpErrorCode.InternalError,
        "Error executing " ++ name ++ ": " ++ e.message⟩

/-- `invoke(name, args)`: the switch run under the catch-all wrapper. -/
def invoke (parse : String → Option Int) (now : Int) (t : Nat)
    (name : String) (a : RawArgs) : Except McpError String :=
  catchWrap name (toolSwitch parse now t name a)

/-- Decimal value of the characters produced by `Nat.digitChar` on 0..9. -/
def digitVal (c : Char) : Nat :=
  if c = '0' then 0 else if c = '1' then 1 else if c = '2' then 2 else
  if c = '3' then 3 else if c = '4' then 4 else if c = '5' then 5 else
  if c = '6' then 6 else if c = '7' then 7 else if c = '8' then 8 else 9

/-- Numeric value of a digit string read left to right. -/
def digitsVal (l : List Char) : Nat :=
  l.foldl (fun acc c => acc * 10 + digitVal c) 0

theorem digitVal_digitChar {d : Nat} (h : d < 10) : digitVal (Nat.digitChar d) = d := by
  interval_cases d <;> rfl

theorem toDigitsCore_append (b fuel n : Nat) (ds : List Char) :
    Nat.toDigitsCore b fuel n ds = Nat.toDigitsCore b fuel n [] ++ ds := by
  induction fuel generalizing n ds with
  | zero => rfl
  | succ f ih =>
    simp only [Nat.toDigitsCore]
    by_cases h : n / b = 0
    · simp [h]
    · simp only [if_neg h]
      rw [ih (n / b) (Nat.digitChar (n % b) :: ds),
        ih (n / b) [Nat.digitChar (n % b)], List.append_assoc]
      rfl

theorem digitsVal_toDigitsCore (fuel n : Nat) (h : n < fuel) :
    digitsVal (Nat.toDigitsCore 10 fuel n []) = n := by
  induction fuel generalizing n with
  | zero => omega
  | succ f ih =>
    simp only [Nat.toDigitsCore]
    by_cases h0 : n / 10 = 0
    · have hn : n < 10 := by omega
      rw [if_pos h0]
      have : n % 10 = n := Nat.mod_eq_of_lt hn
      simp only [digitsVal, List.foldl_cons, List.foldl_nil, Nat.zero_mul, Nat.zero_add, this]
      exact digitVal_digitChar hn
    · rw [if_neg h0, toDigitsCore_append]
      have hv : digitsVal (Nat.toDigitsCore 10 f (n / 10) [] ++ [Nat.digitChar (n % 10)]) =
          digitsVal (Nat.toDigitsCore 10 f (n / 10) []) * 10 + digitVal (Nat.digitChar (n % 10)) := by
        simp [digitsVal, List.foldl_append]
      rw [hv, ih (n / 10) (by omega), digitVal_digitChar (Nat.mod_lt n (by omega))]
      omega

theorem Nat_repr_inj {n m : Nat} (h : Nat.repr n = Nat.repr m) : n = m := by
  have hl : Nat.toDigits 10 n = Nat.toDigits 10 m := List.asString_inj.mp h
  have hn := digitsVal_toDigitsCore (n + 1) n (Nat.lt_succ_self n)
  have hm := digitsVal_toDigitsCore (m + 1) m (Nat.lt_succ_self m)
  unfold Nat.toDigits at hl
  rw [← hn, ← hm, hl]

theorem str_append_cancel_left {a b c : String} (h : a ++ b = a ++ c) : b = c := by
  apply String.ext
  have hd : a.data ++ b.data = a.data ++ c.data := by
    have := congrArg String.data h
    simpa using this
  exact List.append_cancel_left hd

theorem id_ne_of_ne (p : String) {t1 t2 : Nat} (h : t1 ≠ t2) :
    p ++ Nat.repr t1 ≠ p ++ Nat.repr t2 :=
  fun he => h (Nat_repr_inj (str_append_cancel_left he))

/-- Claim C1: invoking an unknown operation name such as nonexistent_tool.
The switch throws the MethodNotFound error inside its own try block, so the
catch-all rewraps it: the surfaced error carries code InternalError, with
the unknown name only inside the wrapped message, instead of the
MethodNotFound code the claim states. -/
theorem claim_c1_unknown_tool_wrapped (parse : String → Option Int) (now : Int)
    (t : Nat) (a : RawArgs) :
    invoke parse now t ("nonexistent_tool") a =
      Except.error ⟨McpErrorCode.InternalError,
        "Error executing nonexistent_tool: Unknown tool: nonexistent_tool"⟩ := rfl

/-- Claim C2 counterexample: the bias-documentation descriptor in the code
registry requires incident_date as well, so its required set is not the
two-element set from the spec table. -/
theorem claim_c2_bias_required_refuted :
    (getTool ("document_judicial_bias")).map (fun d => d.required) =
      some (["incident_date", "bias_type", "description"]) ∧
    specRequiredOf ("document_judicial_bias") = some (["bias_type", "description"]) ∧
    ("incident_date" ∈ (["incident_date", "bias_type", "description"] : List String)) ∧
    ¬ ("incident_date" ∈ (["bias_type", "description"] : List String)) := by
  refine ⟨rfl, rfl, ?_, ?_⟩ <;> decide

/-- Claim C2 (amended): list() returns exactly one descriptor per operation
name, four of the five required sets match the spec table, and the
bias-documentation required set is exactly incident_date, bias_type and
description, with incident_date required rather than optional. -/
theorem claim_c2_descriptors_amended :
    (listTools.map (fun d => d.name)) =
      ["analyze_legal_case", "track_evidence", "monitor_deadlines",
       "document_judicial_bias", "child_welfare_assessment"] ∧
    (listTools.map (fun d => d.name)).Nodup ∧
    specRequiredOf ("analyze_legal_case") =
      (getTool ("analyze_legal_case")).map (fun d => d.required) ∧
    specRequiredOf ("track_evidence") =
      (getTool ("track_evidence")).map (fun d => d.required) ∧
    specRequiredOf ("monitor_deadlines") =
      (getTool ("monitor_deadlines")).map (fun d => d.required) ∧
    specRequiredOf ("child_welfare_assessment") =
      (getTool ("child_welfare_assessment")).map (fun d => d.required) ∧
    (getTool ("document_judicial_bias")).map (fun d => d.required) =
      some ("incident_date" :: ["bias_type", "description"]) ∧
    specRequiredOf ("document_judicial_bias") = some (["bias_type", "description"]) := by
  refine ⟨rfl, ?_, rfl, rfl, rfl, rfl, rfl, rfl⟩
  decide

set_option maxRecDepth 16384 in
/-- Claim C9: the Recommendations and Next Steps sections are the same two
fixed four-element lists for every analysis type and focus area, the
findings depend only on the analysis type, and every case-analysis report
ends with the two fixed sections. -/
theorem claim_c9_static_sections (ty1 ty2 f1 f2 : Option String) :
    generateRecommendations ty1 f1 = generateRecommendations ty2 f2 ∧
    generateNextSteps ty1 f1 = generateNextSteps ty2 f2 ∧
    (generateRecommendations ty1 f1).length = 4 ∧
    (generateNextSteps ty1 f1).length = 4 ∧
    generateAnalysisFindings ty1 f1 = generateAnalysisFindings ty1 f2 ∧
    (∀ a : RawArgs, ∃ p : String, analyzeLegalCase a =
      p ++ ("Recommendations:\nFile motion for judicial recusal based on documented bias\nRequest emergency hearing for child welfare concerns\nGather additional evidence of procedural violations\nConsider federal civil rights lawsuit if state remedies fail\n\nNext Steps:\nPrepare comprehensive bias documentation package\nSchedule emergency consultation with civil rights attorney\nDocument all future interactions with court system\nPrioritize Kekoa\x27s immediate safety and well-being")) := by
  refine ⟨rfl, rfl, rfl, rfl, rfl, ?_⟩
  intro a
  refine ⟨"Legal Case Analysis Complete for " ++ a.case_id.getD caseId ++ "\n\n" ++
    "Analysis Type: " ++ jsStr a.analysis_type ++ "\n" ++
    "Focus Area: " ++ jsOr a.focus_area ("General") ++ "\n\n" ++
    "Key Findings:\n" ++
    String.intercalate ("\n") (generateAnalysisFindings a.analysis_type a.focus_area) ++
    "\n\n", ?_⟩
  simp only [analyzeLegalCase, String.append_assoc]
  rfl

/-- Claim C5: whenever the deadline date parses, the computed whole-day
count d is the ceiling of the millisecond difference over a day, and the
urgency band is URGENT for d up to 7, IMPORTANT for d from 8 to 30, and
SCHEDULED above 30, with the boundary values 7, 8, 30 and 31 landing as the
claim states. -/
theorem claim_c5_urgency_bands (parse : String → Option Int) (now : Int) (a : RawArgs)
    (ms : Int) (h : a.date.bind parse = some ms) :
    mdDaysUntil parse now a = some (jsCeilDiv (ms - now) 86400000) ∧
    (∀ d : Int, d ≤ 7 → mdUrgency (some d) = "URGENT") ∧
    (∀ d : Int, 7 < d → d ≤ 30 → mdUrgency (some d) = "IMPORTANT") ∧
    (∀ d : Int, 30 < d → mdUrgency (some d) = "SCHEDULED") ∧
    mdUrgency (some 7) = "URGENT" ∧ mdUrgency (some 8) = "IMPORTANT" ∧
    mdUrgency (some 30) = "IMPORTANT" ∧ mdUrgency (some 31) = "SCHEDULED" := by
  refine ⟨by simp only [mdDaysUntil, h], ?_, ?_, ?_, by decide, by decide, by decide, by decide⟩
  · intro d hd
    simp only [mdUrgency]
    rw [if_pos hd]
  · intro d h7 h30
    simp only [mdUrgency]
    rw [if_neg (by omega), if_pos h30]
  · intro d h30
    simp only [mdUrgency]
    rw [if_neg (by omega), if_neg (by omega)]

/-- Witness for claim C5: a concrete parse result seven days ahead
satisfies the hypothesis, and the boundary bands evaluate as stated. -/
theorem claim_c5_witness :
    mdUrgency (some 7) = "URGENT" ∧ mdUrgency (some 8) = "IMPORTANT" ∧
    mdUrgency (some 30) = "IMPORTANT" ∧ mdUrgency (some 31) = "SCHEDULED" := by
  have h := claim_c5_urgency_bands (fun _ => some 604800000) 0
    { date := some ("2099-01-08") } 604800000 rfl
  exact ⟨h.2.2.2.2.1, h.2.2.2.2.2.1, h.2.2.2.2.2.2.1, h.2.2.2.2.2.2.2⟩

set_option maxRecDepth 16384 in
/-- Claim C4 counterexample: with an unparseable date string the deadline
handler does not raise — invoke returns the formatted text, which shows the
NaN day count and the SCHEDULED band, instead of the wrapped
execution-failed error the claim requires. -/
theorem claim_c4_unparseable_refuted :
    invoke (fun _ => none) 0 0 ("monitor_deadlines") { date := some ("not-a-date") } =
      Except.ok ("Deadline Monitoring Activated\n\nDeadline ID: deadline_0\nType: undefined\nDate: not-a-date\nDays Until: NaN\nUrgency: SCHEDULED\nPriority: undefined\nDescription: undefined\n\nAutomatic alerts will be sent for this deadline. Fighting for Kekoa\x27s future!") := rfl

/-- Claim C4 (amended): an unparseable deadline date does not make the
handler raise — the day count is NaN, which prints NaN and is classified
SCHEDULED, and invoke returns the formatted text successfully; the catch
block turns a failure into the execution-failed InternalError carrying the
operation name and the inner message, and passes successes through, so the
wrapped error appears exactly when the dispatched computation fails. -/
theorem claim_c4_nan_sched_amended (parse : String → Option Int) (now : Int) (t : Nat)
    (a : RawArgs) (h : a.date.bind parse = none) :
    mdDaysUntil parse now a = none ∧
    jsNumStr (mdDaysUntil parse now a) = "NaN" ∧
    mdUrgency (mdDaysUntil parse now a) = "SCHEDULED" ∧
    invoke parse now t ("monitor_deadlines") a = Except.ok (monitorDeadlines parse now t a) ∧
    (∀ (nm : String) (e : McpError),
      catchWrap nm (Except.error e) =
        Except.error ⟨McpErrorCode.InternalError,
          "Error executing " ++ nm ++ ": " ++ e.message⟩) ∧
    (∀ (nm s : String), catchWrap nm (Except.ok s) = Except.ok s) := by
  refine ⟨?_, ?_, ?_, rfl, fun nm e => rfl, fun nm s => rfl⟩
  · simp only [mdDaysUntil, h]
  · simp only [mdDaysUntil, h, jsNumStr]
  · simp only [mdDaysUntil, h, mdUrgency]

/-- Witness for claim C4: a parser rejecting every string satisfies the
hypothesis at a concrete argument object. -/
theorem claim_c4_witness :
    mdUrgency (mdDaysUntil (fun _ => none) 0 { date := some ("nope") }) = "SCHEDULED" := by
  have h := claim_c4_nan_sched_amended (fun _ => none) 0 0 { date := some ("nope") } rfl
  exact h.2.2.1

set_option maxRecDepth 16384 in
/-- Claim C3 counterexample: with the optional priority field omitted, the
deadline report renders the literal word undefined in the priority
position, which is neither a documented default nor the Not specified
placeholder. -/
theorem claim_c3_priority_undefined_refuted :
    monitorDeadlines (fun _ => some 604800000) 0 0
        { deadline_type := some ("filing_deadline"), date := some ("2099-01-08"),
          description := some ("file brief") } =
      ("Deadline Monitoring Activated\n\nDeadline ID: deadline_0\nType: filing_deadline\nDate: 2099-01-08\nDays Until: 7\nUrgency: URGENT\nPriority: undefined\nDescription: file brief\n\nAutomatic alerts will be sent for this deadline. Fighting for Kekoa\x27s future!") ∧
    ("undefined" ≠ "Not specified") := by
  exact ⟨rfl, by decide⟩

set_option maxRecDepth 16384 in
/-- Claim C3 (amended): every optional field other than the deadline
priority and the bias impact renders its documented default or placeholder
when omitted (fixed case id, General, Not specified, None specified, To be
gathered, Under review), and the handlers still succeed; the deadline
priority and bias impact fields instead render the literal word undefined
in their positions. -/
theorem claim_c3_optional_fallbacks_amended :
    (∀ a : RawArgs, a.case_id = none → ∃ s, analyzeLegalCase a =
      "Legal Case Analysis Complete for 1FDV-23-0001009\n\n" ++ s) ∧
    (∀ a : RawArgs, a.focus_area = none → ∃ p s, analyzeLegalCase a =
      p ++ "Focus Area: General\n\n" ++ s) ∧
    (∀ (t : Nat) (a : RawArgs), a.relevance = none → ∃ p s, trackEvidence t a =
      p ++ "Relevance: Not specified\n" ++ s) ∧
    (∀ (t : Nat) (a : RawArgs), a.date_collected = none → ∃ p s, trackEvidence t a =
      p ++ "Date Collected: Not specified\n\n" ++ s) ∧
    (∀ (parse : String → Option Int) (now : Int) (t : Nat) (a : RawArgs),
      a.priority = none → ∃ p s, monitorDeadlines parse now t a =
      p ++ "Priority: undefined\n" ++ s) ∧
    (∀ (t : Nat) (a : RawArgs), a.impact = none → ∃ p s, documentJudicialBias t a =
      p ++ "Impact: undefined\n" ++ s) ∧
    (∀ (t : Nat) (a : RawArgs), a.witnesses = none → ∃ p s, documentJudicialBias t a =
      p ++ "Witnesses: None specified\n\n" ++ s) ∧
    (∀ (t : Nat) (a : RawArgs), a.evidence = none → ∃ p s, assessChildWelfare t a =
      p ++ "Evidence: To be gathered\n" ++ s) ∧
    (∀ (t : Nat) (a : RawArgs), a.recommended_action = none → ∃ p s, assessChildWelfare t a =
      p ++ "Recommended Action: Under review\n\n" ++ s) := by
  refine ⟨?_, ?_, ?_, ?_, ?_, ?_, ?_, ?_, ?_⟩
  · intro a h
    refine ⟨"Analysis Type: " ++ jsStr a.analysis_type ++ "\n" ++
      "Focus Area: " ++ jsOr a.focus_area ("General") ++ "\n\n" ++
      "Key Findings:\n" ++
      String.intercalate ("\n") (generateAnalysisFindings a.analysis_type a.focus_area) ++
      "\n\n" ++ "Recommendations:\n" ++
      String.intercalate ("\n") (generateRecommendations a.analysis_type a.focus_area) ++
      "\n\n" ++ "Next Steps:\n" ++
      String.intercalate ("\n") (generateNextSteps a.analysis_type a.focus_area), ?_⟩
    simp only [analyzeLegalCase, h, String.append_assoc]
    rfl
  · intro a h
    refine ⟨"Legal Case Analysis Complete for " ++ a.case_id.getD caseId ++
      "\n\nAnalysis Type: " ++ jsStr a.analysis_type ++ "\n",
      "Key Findings:\n" ++
      String.intercalate ("\n") (generateAnalysisFindings a.analysis_type none) ++
      "\n\n" ++ "Recommendations:\n" ++
      String.intercalate ("\n") (generateRecommendations a.analysis_type none) ++
      "\n\n" ++ "Next Steps:\n" ++
      String.intercalate ("\n") (generateNextSteps a.analysis_type none), ?_⟩
    simp only [analyzeLegalCase, h, String.append_assoc]
    rfl
  · intro t a h
    refine ⟨"Evidence Tracked Successfully\n\nEvidence ID: " ++ evidenceId t ++
      "\nType: " ++ jsStr a.evidence_type ++ "\nDescription: " ++ jsStr a.description ++ "\n",
      "Date Collected: " ++ jsOr a.date_collected ("Not specified") ++
      "\n\nThis evidence has been added to the Case 1FDV-23-0001009 evidence database.", ?_⟩
    simp only [trackEvidence, h, String.append_assoc]
    rfl
  · intro t a h
    refine ⟨"Evidence Tracked Successfully\n\nEvidence ID: " ++ evidenceId t ++
      "\nType: " ++ jsStr a.evidence_type ++ "\nDescription: " ++ jsStr a.description ++
      "\nRelevance: " ++ jsOr a.relevance ("Not specified") ++ "\n",
      "This evidence has been added to the Case 1FDV-23-0001009 evidence database.", ?_⟩
    simp only [trackEvidence, h, String.append_assoc]
    rfl
  · intro parse now t a h
    refine ⟨"Deadline Monitoring Activated\n\nDeadline ID: " ++ deadlineId t ++
      "\nType: " ++ jsStr a.deadline_type ++ "\nDate: " ++ jsStr a.date ++
      "\nDays Until: " ++ jsNumStr (mdDaysUntil parse now a) ++
      "\nUrgency: " ++ mdUrgency (mdDaysUntil parse now a) ++ "\n",
      "Description: " ++ jsStr a.description ++
      "\n\nAutomatic alerts will be sent for this deadline. Fighting for Kekoa\x27s future!", ?_⟩
    simp only [monitorDeadlines, h, String.append_assoc]
    rfl
  · intro t a h
    refine ⟨"Judicial Bias Incident Documented\n\nIncident ID: " ++ biasIncidentId t ++
      "\nDate: " ++ jsStr a.incident_date ++ "\nType: " ++ jsStr a.bias_type ++ "\n",
      "Description: " ++ jsStr a.description ++ "\nWitnesses: " ++
      jsOr (a.witnesses.map (String.intercalate (", "))) ("None specified") ++
      "\n\nThis incident has been added to the judicial bias documentation for Case 1FDV-23-0001009. Justice for Kekoa - every instance of bias is documented and will be used to protect his future.", ?_⟩
    simp only [documentJudicialBias, h, String.append_assoc]
    rfl
  · intro t a h
    refine ⟨"Judicial Bias Incident Documented\n\nIncident ID: " ++ biasIncidentId t ++
      "\nDate: " ++ jsStr a.incident_date ++ "\nType: " ++ jsStr a.bias_type ++
      "\nImpact: " ++ jsStr a.impact ++ "\nDescription: " ++ jsStr a.description ++ "\n",
      "This incident has been added to the judicial bias documentation for Case 1FDV-23-0001009. Justice for Kekoa - every instance of bias is documented and will be used to protect his future.", ?_⟩
    simp only [documentJudicialBias, h, String.append_assoc]
    rfl
  · intro t a h
    refine ⟨"Child Welfare Assessment Completed\n\nAssessment ID: " ++ welfareId t ++
      "\nChild: Kekoa\nDate: " ++ jsStr a.assessment_date ++
      "\nConcern Type: " ++ jsStr a.concern_type ++ "\nSeverity: " ++ jsStr a.severity ++ "\n",
      "Recommended Action: " ++ jsOr a.recommended_action ("Under review") ++
      "\n\nKekoa\x27s welfare is our top priority. This assessment will be used to ensure his safety and well-being.", ?_⟩
    simp only [assessChildWelfare, h, String.append_assoc]
    rfl
  · intro t a h
    refine ⟨"Child Welfare Assessment Completed\n\nAssessment ID: " ++ welfareId t ++
      "\nChild: Kekoa\nDate: " ++ jsStr a.assessment_date ++
      "\nConcern Type: " ++ jsStr a.concern_type ++ "\nSeverity: " ++ jsStr a.severity ++
      "\nEvidence: " ++ jsOr a.evidence ("To be gathered") ++ "\n",
      "Kekoa\x27s welfare is our top priority. This assessment will be used to ensure his safety and well-being.", ?_⟩
    simp only [assessChildWelfare, h, String.append_assoc]
    rfl

/-- Witness for claim C3: the empty argument object omits every optional
field, and the relevance conjunct applies to it at a concrete clock. -/
theorem claim_c3_witness :
    ∃ p s, trackEvidence 0 {} = p ++ "Relevance: Not specified\n" ++ s :=
  claim_c3_optional_fallbacks_amended.2.2.1 0 {} rfl

set_option maxRecDepth 16384 in
/-- Claim C6 counterexample: the generated ids derive from the millisecond
clock alone, so two successive invocations that read the same millisecond
value produce identical ids; and for deadline monitoring two successive
invocations with identical arguments whose clocks straddle a day boundary
recompute Days Until (8 versus 7) and Urgency (IMPORTANT versus URGENT)
from the wall clock, so the texts also differ beyond the id and timestamp
fields. -/
theorem claim_c6_refuted :
    (¬ (∀ t1 t2 : Nat, t1 ≤ t2 → evidenceId t1 ≠ evidenceId t2)) ∧
    jsNumStr (mdDaysUntil (fun _ => some 691200000) 0
      { deadline_type := some ("filing_deadline"), date := some ("2099-01-09"),
        description := some ("file brief") }) = "8" ∧
    mdUrgency (mdDaysUntil (fun _ => some 691200000) 0
      { deadline_type := some ("filing_deadline"), date := some ("2099-01-09"),
        description := some ("file brief") }) = "IMPORTANT" ∧
    jsNumStr (mdDaysUntil (fun _ => some 691200000) 86400000
      { deadline_type := some ("filing_deadline"), date := some ("2099-01-09"),
        description := some ("file brief") }) = "7" ∧
    mdUrgency (mdDaysUntil (fun _ => some 691200000) 86400000
      { deadline_type := some ("filing_deadline"), date := some ("2099-01-09"),
        description := some ("file brief") }) = "URGENT" ∧
    monitorDeadlines (fun _ => some 691200000) 0 0
      { deadline_type := some ("filing_deadline"), date := some ("2099-01-09"),
        description := some ("file brief") } =
      "Deadline Monitoring Activated\n\nDeadline ID: deadline_0\nType: filing_deadline\nDate: 2099-01-09\nDays Until: 8\nUrgency: IMPORTANT\nPriority: undefined\nDescription: file brief\n\nAutomatic alerts will be sent for this deadline. Fighting for Kekoa\x27s future!" ∧
    monitorDeadlines (fun _ => some 691200000) 86400000 86400000
      { deadline_type := some ("filing_deadline"), date := some ("2099-01-09"),
        description := some ("file brief") } =
      "Deadline Monitoring Activated\n\nDeadline ID: deadline_86400000\nType: filing_deadline\nDate: 2099-01-09\nDays Until: 7\nUrgency: URGENT\nPriority: undefined\nDescription: file brief\n\nAutomatic alerts will be sent for this deadline. Fighting for Kekoa\x27s future!" :=
  ⟨fun hcl => hcl 1700000000000 1700000000000 (Nat.le_refl 1700000000000) rfl,
   rfl, rfl, rfl, rfl, rfl, rfl⟩

set_option maxRecDepth 16384 in
/-- Claim C6 (amended): whenever the two invocations observe different
clock values, all four generated ids differ. For evidence tracking, bias
documentation and welfare assessment the report is the fixed prefix, the
id, and a remainder that does not depend on the clock, so texts for the
same arguments are identical apart from the generated id (the timestamps
in the constructed objects are not rendered in the text). For deadline
monitoring, where the single invocation clock u feeds both the id and the
day computation, the text varies with the clock only through the id and
the recomputed Days Until and Urgency fields. -/
theorem claim_c6_ids_amended (t1 t2 : Nat) (h : t1 ≠ t2) :
    evidenceId t1 ≠ evidenceId t2 ∧ deadlineId t1 ≠ deadlineId t2 ∧
    biasIncidentId t1 ≠ biasIncidentId t2 ∧ welfareId t1 ≠ welfareId t2 ∧
    (∀ a : RawArgs, ∃ suf : String, ∀ t : Nat,
      trackEvidence t a = "Evidence Tracked Successfully\n\nEvidence ID: " ++ evidenceId t ++ suf) ∧
    (∀ (parse : String → Option Int) (a : RawArgs), ∃ mid suf : String, ∀ u : Nat,
      monitorDeadlines parse (Int.ofNat u) u a =
        "Deadline Monitoring Activated\n\nDeadline ID: " ++ deadlineId u ++ mid ++
        ("Days Until: " ++ jsNumStr (mdDaysUntil parse (Int.ofNat u) a) ++
         "\nUrgency: " ++ mdUrgency (mdDaysUntil parse (Int.ofNat u) a) ++ "\n") ++ suf) ∧
    (∀ a : RawArgs, ∃ suf : String, ∀ t : Nat,
      documentJudicialBias t a =
        "Judicial Bias Incident Documented\n\nIncident ID: " ++ biasIncidentId t ++ suf) ∧
    (∀ a : RawArgs, ∃ suf : String, ∀ t : Nat,
      assessChildWelfare t a =
        "Child Welfare Assessment Completed\n\nAssessment ID: " ++ welfareId t ++ suf) := by
  refine ⟨id_ne_of_ne _ h, id_ne_of_ne _ h, id_ne_of_ne _ h, id_ne_of_ne _ h, ?_, ?_, ?_, ?_⟩
  · intro a
    refine ⟨"\nType: " ++ jsStr a.evidence_type ++ "\nDescription: " ++ jsStr a.description ++
      "\nRelevance: " ++ jsOr a.relevance ("Not specified") ++
      "\nDate Collected: " ++ jsOr a.date_collected ("Not specified") ++
      "\n\nThis evidence has been added to the Case 1FDV-23-0001009 evidence database.", ?_⟩
    intro t
    simp only [trackEvidence, String.append_assoc]
    rfl
  · intro parse a
    refine ⟨"\nType: " ++ jsStr a.deadline_type ++ "\nDate: " ++ jsStr a.date ++ "\n",
      "Priority: " ++ jsStr a.priority ++ "\nDescription: " ++ jsStr a.description ++
      "\n\nAutomatic alerts will be sent for this deadline. Fighting for Kekoa\x27s future!", ?_⟩
    intro u
    simp only [monitorDeadlines, String.append_assoc]
    rfl
  · intro a
    refine ⟨"\nDate: " ++ jsStr a.incident_date ++ "\nType: " ++ jsStr a.bias_type ++
      "\nImpact: " ++ jsStr a.impact ++ "\nDescription: " ++ jsStr a.description ++
      "\nWitnesses: " ++ jsOr (a.witnesses.map (String.intercalate (", "))) ("None specified") ++
      "\n\nThis incident has been added to the judicial bias documentation for Case 1FDV-23-0001009. Justice for Kekoa - every instance of bias is documented and will be used to protect his future.", ?_⟩
    intro t
    simp only [documentJudicialBias, String.append_assoc]
    rfl
  · intro a
    refine ⟨"\nChild: Kekoa\nDate: " ++ jsStr a.assessment_date ++
      "\nConcern Type: " ++ jsStr a.concern_type ++ "\nSeverity: " ++ jsStr a.severity ++
      "\nEvidence: " ++ jsOr a.evidence ("To be gathered") ++
      "\nRecommended Action: " ++ jsOr a.recommended_action ("Under review") ++
      "\n\nKekoa\x27s welfare is our top priority. This assessment will be used to ensure his safety and well-being.", ?_⟩
    intro t
    simp only [assessChildWelfare, String.append_assoc]
    rfl

/-- Witness for claim C6: two adjacent concrete millisecond values give
distinct evidence and deadline ids. -/
theorem claim_c6_witness :
    evidenceId 1700000000000 ≠ evidenceId 1700000000001 ∧
    deadlineId 1700000000000 ≠ deadlineId 1700000000001 := by
  have h := claim_c6_ids_amended 1700000000000 1700000000001 (by omega)
  exact ⟨h.1, h.2.1⟩

set_option maxRecDepth 16384 in
/-- Claim C7: the evidence-tracking invocation with only type document and
description court filing succeeds, and its text renders the lines
Relevance: Not specified and Date Collected: Not specified. -/
theorem claim_c7_evidence_placeholders (parse : String → Option Int) (now : Int) (t : Nat) :
    invoke parse now t ("track_evidence")
        { evidence_type := some ("document"), description := some ("court filing") } =
      Except.ok (trackEvidence t
        { evidence_type := some ("document"), description := some ("court filing") }) ∧
    trackEvidence t { evidence_type := some ("document"), description := some ("court filing") } =
      "Evidence Tracked Successfully\n\nEvidence ID: " ++ evidenceId t ++
      "\nType: document\nDescription: court filing\nRelevance: Not specified\nDate Collected: Not specified\n\nThis evidence has been added to the Case 1FDV-23-0001009 evidence database." := by
  refine ⟨rfl, ?_⟩
  simp only [trackEvidence, String.append_assoc]
  rfl

set_option maxRecDepth 16384 in
/-- Claim C8: the welfare-assessment invocation with the given date,
concern type neglect and severity critical succeeds, and its text contains
the fixed child name and the supplied concern type and severity verbatim. -/
theorem claim_c8_welfare_verbatim (parse : String → Option Int) (now : Int) (t : Nat) :
    invoke parse now t ("child_welfare_assessment")
        { assessment_date := some ("2024-01-01"), concern_type := some ("neglect"),
          severity := some ("critical") } =
      Except.ok (assessChildWelfare t
        { assessment_date := some ("2024-01-01"), concern_type := some ("neglect"),
          severity := some ("critical") }) ∧
    assessChildWelfare t
        { assessment_date := some ("2024-01-01"), concern_type := some ("neglect"),
          severity := some ("critical") } =
      "Child Welfare Assessment Completed\n\nAssessment ID: " ++ welfareId t ++
      "\nChild: Kekoa\nDate: 2024-01-01\nConcern Type: neglect\nSeverity: critical\nEvidence: To be gathered\nRecommended Action: Under review\n\nKekoa\x27s welfare is our top priority. This assessment will be used to ensure his safety and well-being." := by
  refine ⟨rfl, ?_⟩
  simp only [assessChildWelfare, String.append_assoc]
  rfl

set_option maxRecDepth 16384 in
/-- Claim C10 counterexample: the non-empty witness list consisting of one
empty name joins to the empty string, which is falsy, so the report renders
None specified instead of the joined names. -/
theorem claim_c10_empty_join_refuted :
    (([""] : List String) ≠ []) ∧
    (String.intercalate (", ") ([""] : List String) = "") ∧
    documentJudicialBias 0
        { incident_date := some ("2024-01-01"), bias_type := some ("gender_bias"),
          description := some ("d"), witnesses := some ([""]) } =
      "Judicial Bias Incident Documented\n\nIncident ID: bias_incident_0\nDate: 2024-01-01\nType: gender_bias\nImpact: undefined\nDescription: d\nWitnesses: None specified\n\nThis incident has been added to the judicial bias documentation for Case 1FDV-23-0001009. Justice for Kekoa - every instance of bias is documented and will be used to protect his future." := by
  exact ⟨by decide, rfl, rfl⟩

set_option maxRecDepth 16384 in
/-- Claim C10 (amended): an absent witnesses field renders None specified;
a present list whose comma join is empty (the empty list, or a non-empty
list of empty names) also renders None specified; a list whose comma join
is non-empty renders the joined names. -/
theorem claim_c10_witnesses_amended (t : Nat) (a : RawArgs) :
    (a.witnesses = none → ∃ p s, documentJudicialBias t a =
      p ++ "Witnesses: None specified\n\n" ++ s) ∧
    (∀ l : List String, a.witnesses = some l → String.intercalate (", ") l = "" →
      ∃ p s, documentJudicialBias t a = p ++ "Witnesses: None specified\n\n" ++ s) ∧
    (∀ l : List String, a.witnesses = some l → String.intercalate (", ") l ≠ "" →
      ∃ p s, documentJudicialBias t a =
        p ++ ("Witnesses: " ++ String.intercalate (", ") l ++ "\n\n") ++ s) := by
  refine ⟨?_, ?_, ?_⟩
  · intro h
    refine ⟨"Judicial Bias Incident Documented\n\nIncident ID: " ++ biasIncidentId t ++
      "\nDate: " ++ jsStr a.incident_date ++ "\nType: " ++ jsStr a.bias_type ++
      "\nImpact: " ++ jsStr a.impact ++ "\nDescription: " ++ jsStr a.description ++ "\n",
      "This incident has been added to the judicial bias documentation for Case 1FDV-23-0001009. Justice for Kekoa - every instance of bias is documented and will be used to protect his future.", ?_⟩
    simp only [documentJudicialBias, h, String.append_assoc]
    rfl
  · intro l h hj
    refine ⟨"Judicial Bias Incident Documented\n\nIncident ID: " ++ biasIncidentId t ++
      "\nDate: " ++ jsStr a.incident_date ++ "\nType: " ++ jsStr a.bias_type ++
      "\nImpact: " ++ jsStr a.impact ++ "\nDescription: " ++ jsStr a.description ++ "\n",
      "This incident has been added to the judicial bias documentation for Case 1FDV-23-0001009. Justice for Kekoa - every instance of bias is documented and will be used to protect his future.", ?_⟩
    simp only [documentJudicialBias, h, Option.map_some', jsOr, hj, String.append_assoc]
    rfl
  · intro l h hj
    refine ⟨"Judicial Bias Incident Documented\n\nIncident ID: " ++ biasIncidentId t ++
      "\nDate: " ++ jsStr a.incident_date ++ "\nType: " ++ jsStr a.bias_type ++
      "\nImpact: " ++ jsStr a.impact ++ "\nDescription: " ++ jsStr a.description ++ "\n",
      "This incident has been added to the judicial bias documentation for Case 1FDV-23-0001009. Justice for Kekoa - every instance of bias is documented and will be used to protect his future.", ?_⟩
    simp only [documentJudicialBias, h, Option.map_some', jsOr, String.append_assoc]
    rw [if_neg hj]
    rfl

/-- Witness for claim C10: a two-name witness list joins non-trivially and
the joined names are rendered. -/
theorem claim_c10_joined_witness :
    ∃ p s, documentJudicialBias 0 { witnesses := some (["Ann", "Bob"]) } =
      p ++ ("Witnesses: " ++ String.intercalate (", ") (["Ann", "Bob"]) ++ "\n\n") ++ s :=
  (claim_c10_witnesses_amended 0 { witnesses := some (["Ann", "Bob"]) }).2.2
    (["Ann", "Bob"]) rfl (by decide)
